import Mathlib

/-!
Shallow embedding of the MCP core of the `nanobot` repository
(`nanobot/mcp/tools.py` and `nanobot/mcp/client.py`), with the configuration
shapes those modules consume, followed by theorems settling the spec claims.

Conventions of the embedding:
* Python strings are `String`; dicts are association lists `List (String × α)`
  in insertion order; Python `x or d` (falsy fallback) is translated explicitly.
* The remote FastMCP client is external: a call is represented by its outcome
  (`CallResult`), and per-server connection/discovery behaviour by an
  environment `Env : String → ServerBehavior` consulted by `start`.
* Python exceptions are `Except String` values; a `try/except` that logs and
  continues becomes a `match` discarding the `.error` branch.
-/

namespace Nanobot

/-- A JSON-like value, enough to carry the tool input schemas that the adapter
stores and falls back on (`{"type": "object", "properties": {}}`). -/
inductive Schema where
  | str (s : String)
  | obj (fields : List (String × Schema))

/-- Python truthiness of a schema value: the empty dict `{}` and the empty
string are falsy, everything else truthy (used to translate `x or default`). -/
def Schema.isFalsy : Schema → Bool
  | .obj [] => true
  | .str "" => true
  | _ => false

/-- One content block of a remote call response: either text-bearing
(`hasattr(block, "text")`) or any other shape, carried with its `str(...)`
rendering. -/
inductive ContentBlock where
  | text (s : String)
  | other (repr : String)
deriving DecidableEq

/-- The string the adapter's loop appends for one block: `block.text` for a
text-bearing block, `str(block)` otherwise. -/
def blockPart : ContentBlock → String
  | .text s => s
  | .other r => r

/-- Outcome of `client.call_tool(name, kwargs)`: a result whose `.content` is a
list of blocks, or a raised exception carried as its message string. -/
inductive CallResult where
  | ok (content : List ContentBlock)
  | exn (msg : String)
deriving DecidableEq

/-- A remote FastMCP client, abstracted as the outcome of calling each tool
name with an arguments mapping. -/
def McpClient : Type := String → List (String × String) → CallResult

/-- `McpToolAdapter` (`nanobot/mcp/tools.py`): the fields stored by
`__init__`. The live client is not stored here; `execute` receives it
explicitly. -/
structure McpToolAdapter where
  server_name : String
  tool_name : String
  description : String
  input_schema : Schema

/-- `McpToolAdapter.__init__`: stores the names and applies the two falsy
fallbacks `tool_description or f"MCP tool {tool_name} from {server_name}"` and
`input_schema or {"type": "object", "properties": {}}`. -/
def McpToolAdapter.make (server_name tool_name tool_description : String)
    (input_schema : Schema) : McpToolAdapter :=
  { server_name := server_name
    tool_name := tool_name
    description :=
      if tool_description.isEmpty then
        "MCP tool " ++ tool_name ++ " from " ++ server_name
      else tool_description
    input_schema :=
      if input_schema.isFalsy then
        Schema.obj [("type", Schema.str "object"), ("properties", Schema.obj [])]
      else input_schema }

/-- The `name` property: `f"mcp__{self._server_name}__{self._tool_name}"`. -/
def McpToolAdapter.name (a : McpToolAdapter) : String :=
  "mcp__" ++ a.server_name ++ "__" ++ a.tool_name

/-- The `parameters` property: returns the stored input schema. -/
def McpToolAdapter.parameters (a : McpToolAdapter) : Schema :=
  a.input_schema

/-- `McpToolAdapter.execute`: forwards `kwargs` to `client.call_tool` under the
bound tool name; on success joins the blocks' parts with newlines (or the
sentinel when `parts` is empty), on exception returns the error string built
from the tool and server names and the exception message. -/
def McpToolAdapter.execute (a : McpToolAdapter) (client : McpClient)
    (kwargs : List (String × String)) : String :=
  match client a.tool_name kwargs with
  | .ok content =>
      let parts := content.map blockPart
      if parts.isEmpty then "(empty result)"
      else String.intercalate "\n" parts
  | .exn e =>
      "Error calling MCP tool '" ++ a.tool_name ++ "' on server '"
        ++ a.server_name ++ "': " ++ e

/-! ## Configuration shapes

Modelled from the spec: `nanobot/config/schema.py` is not among the sources;
the shapes below follow spec §3/§6 (a set of named server entries, `enabled`
default true, transport type default network/http, transport-specific fields
with empty-container defaults) and the defaults asserted by
`tests/test_mcp.py::test_mcp_server_config_http_defaults`. -/

/-- Modelled from the spec: `McpServerConfig` — one server entry with
`enabled` (default true), `type` (default `"http"`), and transport-specific
fields defaulting to empty containers. -/
structure McpServerConfig where
  enabled : Bool := true
  type : String := "http"
  url : String := ""
  headers : List (String × String) := []
  command : String := ""
  args : List String := []
  env : List (String × String) := []

/-- Modelled from the spec: `McpConfig` — the named server entries, in
insertion order (a Python dict). -/
structure McpConfig where
  servers : List (String × McpServerConfig) := []

/-! ## Transport Selector (`McpClientManager._build_transport`) -/

/-- The concrete FastMCP transport descriptors built by `_build_transport`. -/
inductive Transport where
  | streamableHttp (url : String) (headers : List (String × String))
  | stdio (command : String) (args : List String) (env : List (String × String))

/-- Python `xs or d` for a container: the empty container is falsy. -/
def orEmpty (xs : List α) (d : List α) : List α :=
  if xs.isEmpty then d else xs

/-- `McpClientManager._build_transport`: validates the config and returns a
transport descriptor, or raises `ValueError` (the `Except.error` branch). -/
def build_transport (name : String) (cfg : McpServerConfig) :
    Except String Transport :=
  if cfg.type = "http" then
    if cfg.url = "" then
      .error ("MCP server '" ++ name ++ "': HTTP transport requires a 'url'")
    else
      .ok (.streamableHttp cfg.url (orEmpty cfg.headers []))
  else if cfg.type = "stdio" then
    if cfg.command = "" then
      .error ("MCP server '" ++ name ++ "': stdio transport requires a 'command'")
    else
      .ok (.stdio cfg.command (orEmpty cfg.args []) (orEmpty cfg.env []))
  else
    .error ("MCP server '" ++ name ++ "': unsupported transport type '"
      ++ cfg.type ++ "' (expected 'http' or 'stdio')")

/-! ## Connection Manager (`McpClientManager`) -/

/-- One remote tool descriptor as returned by `client.list_tools()`:
`description` may be `None` and `inputSchema` may be absent (`hasattr`). -/
structure RemoteTool where
  name : String
  description : Option String
  inputSchema : Option Schema

/-- The behaviour of one server as seen through the external FastMCP client:
entering the client context raises, `list_tools` raises after the context
opened, or discovery succeeds with a list of remote tools. -/
inductive ServerBehavior where
  | connectError (msg : String)
  | listError (msg : String)
  | found (tools : List RemoteTool)

/-- The external world `start` interacts with: each server name's behaviour. -/
def Env : Type := String → ServerBehavior

/-- The adapter built for one discovered tool: translates
`tool.description or ""` and `tool.inputSchema if hasattr(...) else {}` and
then applies `McpToolAdapter.__init__`. -/
def adapterOfTool (server_name : String) (t : RemoteTool) : McpToolAdapter :=
  McpToolAdapter.make server_name t.name (t.description.getD "")
    (t.inputSchema.getD (Schema.obj []))

/-- `McpClientManager` state: the config plus the mutable fields `_clients`,
`_contexts` (keyed by server name; the stored client objects are identified
with their server), `_tools` and `_started`. -/
structure McpClientManager where
  config : McpConfig
  clients : List String
  contexts : List String
  tools : List McpToolAdapter
  started : Bool

/-- `McpClientManager.__init__`. -/
def McpClientManager.init (config : McpConfig) : McpClientManager :=
  { config := config, clients := [], contexts := [], tools := [], started := false }

/-- Result of the body of the per-server `try` block in `start`: how many
connection-open attempts (`__aenter__`) were performed, whether the client was
stored into `_clients`/`_contexts` (this happens before `list_tools`, so a
discovery failure leaves the session registered), and the adapters produced or
the exception that escaped the block. -/
structure ServerAttempt where
  opens : Nat
  registered : Bool
  result : Except String (List McpToolAdapter)

/-- The body of the per-server `try` block of `start`: build the transport
(may raise `ValueError`), enter the client context (counted as one open; may
raise), register the session, list tools (may raise), build one adapter per
discovered tool. -/
def processServer (name : String) (cfg : McpServerConfig) (env : Env) :
    ServerAttempt :=
  match build_transport name cfg with
  | .error e => ⟨0, false, .error e⟩
  | .ok _transport =>
    match env name with
    | .connectError msg => ⟨1, false, .error msg⟩
    | .listError msg => ⟨1, true, .error msg⟩
    | .found remote_tools =>
        ⟨1, true, .ok (remote_tools.map (adapterOfTool name))⟩

/-- The `for name, server_cfg in self._config.servers.items()` loop of
`start`: skip disabled servers; otherwise run the `try` body, keeping
registrations and adapters and discarding (logging) any exception. -/
def startLoop (env : Env) (st : McpClientManager) (opens : Nat) :
    List (String × McpServerConfig) → McpClientManager × Nat
  | [] => (st, opens)
  | (name, server_cfg) :: rest =>
    if !server_cfg.enabled then
      startLoop env st opens rest
    else
      let att := processServer name server_cfg env
      let st1 :=
        if att.registered then
          { st with clients := st.clients ++ [name],
                    contexts := st.contexts ++ [name] }
        else st
      let st2 :=
        match att.result with
        | .error _ => st1
        | .ok adapters => { st1 with tools := st1.tools ++ adapters }
      startLoop env st2 (opens + att.opens) rest

/-- `McpClientManager.start`: if already started return the cached tools;
otherwise reset `_tools`, process every server, set `_started` and return the
tools. Also returns the number of connection-open attempts performed. -/
def McpClientManager.start (m : McpClientManager) (env : Env) :
    McpClientManager × List McpToolAdapter × Nat :=
  if m.started then (m, m.tools, 0)
  else
    let r := startLoop env { m with tools := [] } 0 m.config.servers
    let st := { r.1 with started := true }
    (st, st.tools, r.2)

/-- One `__aexit__` attempt per open session in `stop`'s loop, recording
whether the close raised (the exception is caught and logged, and the loop
continues unconditionally). -/
def closeAll (closeFails : String → Bool) : List String → List (String × Bool)
  | [] => []
  | name :: rest => (name, closeFails name) :: closeAll closeFails rest

/-- `McpClientManager.stop`: attempt to close every session in `_contexts`
(failures caught per session), then clear `_clients`, `_contexts`, `_tools`
and reset `_started`. Returns the attempted closes with their outcomes. -/
def McpClientManager.stop (m : McpClientManager) (closeFails : String → Bool) :
    McpClientManager × List (String × Bool) :=
  let attempts := closeAll closeFails m.contexts
  ({ m with clients := [], contexts := [], tools := [], started := false },
   attempts)

/-- `McpClientManager.get_tools`. -/
def McpClientManager.get_tools (m : McpClientManager) : List McpToolAdapter :=
  m.tools

/-- The `is_started` property. -/
def McpClientManager.is_started (m : McpClientManager) : Bool :=
  m.started

/-! ## Decomposition of `start` into per-server contributions -/

/-- The adapters one configured server contributes to `start`'s result:
none when disabled, none when its `try` body raised, its discovered adapters
otherwise. -/
def serverContribution (env : Env) (p : String × McpServerConfig) :
    List McpToolAdapter :=
  if !p.2.enabled then []
  else
    match (processServer p.1 p.2 env).result with
    | .error _ => []
    | .ok adapters => adapters

/-- The number of connection-open attempts one configured server causes. -/
def serverOpens (env : Env) (p : String × McpServerConfig) : Nat :=
  if !p.2.enabled then 0 else (processServer p.1 p.2 env).opens

/-- The session-map entries one configured server registers. -/
def serverRegs (env : Env) (p : String × McpServerConfig) : List String :=
  if !p.2.enabled then []
  else if (processServer p.1 p.2 env).registered then [p.1] else []

theorem startLoop_spec (env : Env)
    (servers : List (String × McpServerConfig)) (st : McpClientManager)
    (opens : Nat) :
    startLoop env st opens servers =
      ({ st with
          clients := st.clients ++ (servers.map (serverRegs env)).flatten,
          contexts := st.contexts ++ (servers.map (serverRegs env)).flatten,
          tools := st.tools ++ (servers.map (serverContribution env)).flatten },
        opens + (servers.map (serverOpens env)).sum) := by
  induction servers generalizing st opens with
  | nil => simp [startLoop]
  | cons p rest ih =>
    obtain ⟨name, cfg⟩ := p
    by_cases h : cfg.enabled
    · cases st with
      | mk c cl cx ts sd =>
        simp only [startLoop, h, Bool.not_true, Bool.false_eq_true, if_false,
          ite_false]
        cases hr : (processServer name cfg env).registered <;>
          cases he : (processServer name cfg env).result <;>
            simp [ih, serverRegs, serverContribution, serverOpens, h, hr, he,
              List.append_assoc, Nat.add_assoc]
    · simp [startLoop, h, ih, serverRegs, serverContribution, serverOpens]

theorem closeAll_map_fst (closeFails : String → Bool) (l : List String) :
    (closeAll closeFails l).map Prod.fst = l := by
  induction l with
  | nil => rfl
  | cons n rest ih => simp [closeAll, ih]

/-- The state `start` ends in when it ran its discovery loop (i.e. was not
already started). -/
def startedState (m : McpClientManager) (env : Env) : McpClientManager :=
  { m with
      clients := m.clients ++ (m.config.servers.map (serverRegs env)).flatten,
      contexts := m.contexts ++ (m.config.servers.map (serverRegs env)).flatten,
      tools := (m.config.servers.map (serverContribution env)).flatten,
      started := true }

theorem start_spec_of_not_started (m : McpClientManager) (env : Env)
    (h : m.started = false) :
    m.start env =
      (startedState m env,
        (m.config.servers.map (serverContribution env)).flatten,
        (m.config.servers.map (serverOpens env)).sum) := by
  cases m with
  | mk c cl cx ts sd =>
    simp only [McpClientManager.start] at *
    subst h
    simp [startLoop_spec, startedState]

/-! ## Concrete inputs used as witnesses -/

/-- A sample adapter over server `"s"`, tool `"t"`. -/
def adapterW : McpToolAdapter := McpToolAdapter.make "s" "t" "desc" (Schema.obj [])

/-- A client whose every call raises `boom`. -/
def clientErrW : McpClient := fun _ _ => .exn "boom"

/-- A client returning the two text blocks of spec §8. -/
def clientTwoLinesW : McpClient :=
  fun _ _ => .ok [.text "Line 1", .text "Line 2"]

/-- A client returning a single text block whose text is empty. -/
def clientEmptyTextW : McpClient := fun _ _ => .ok [.text ""]

/-! ## Claims about the Tool Adapter -/

/-- C1: `execute` is a total function into `String` (it never raises). When
the forwarded call raises with message `msg`, the result is the error string
built from the capability and server names, which has `"Error calling"` as a
prefix (hence contains it) and ends with the failure's message; when the call
succeeds the result is the normalized remote result. -/
theorem execute_never_raises (a : McpToolAdapter) (client : McpClient)
    (kwargs : List (String × String)) :
    (∀ msg, client a.tool_name kwargs = .exn msg →
      a.execute client kwargs =
        "Error calling MCP tool '" ++ a.tool_name ++ "' on server '"
          ++ a.server_name ++ "': " ++ msg ∧
      "Error calling".data <+: (a.execute client kwargs).data ∧
      msg.data <:+ (a.execute client kwargs).data) ∧
    (∀ content, client a.tool_name kwargs = .ok content →
      a.execute client kwargs =
        (if (content.map blockPart).isEmpty then "(empty result)"
         else String.intercalate "\n" (content.map blockPart))) := by
  constructor
  · intro msg h
    have he : a.execute client kwargs =
        "Error calling MCP tool '" ++ a.tool_name ++ "' on server '"
          ++ a.server_name ++ "': " ++ msg := by
      simp [McpToolAdapter.execute, h]
    refine ⟨he, ?_, ?_⟩
    · rw [he]
      simp only [String.data_append, ← List.append_assoc]
      refine List.IsPrefix.trans ?_ (List.prefix_append _ _)
      refine List.IsPrefix.trans ?_ (List.prefix_append _ _)
      refine List.IsPrefix.trans ?_ (List.prefix_append _ _)
      refine List.IsPrefix.trans ?_ (List.prefix_append _ _)
      refine List.IsPrefix.trans ?_ (List.prefix_append _ _)
      decide
    · rw [he]
      simp only [String.data_append]
      exact List.suffix_append _ _
  · intro content h
    simp [McpToolAdapter.execute, h]

/-- C1 witness: a concrete failing call yields the error string, which starts
with `"Error calling"` and ends with the failure's message. -/
theorem execute_never_raises_witness :
    clientErrW adapterW.tool_name [] = .exn "boom" ∧
    adapterW.execute clientErrW [] =
      "Error calling MCP tool '" ++ adapterW.tool_name ++ "' on server '"
        ++ adapterW.server_name ++ "': " ++ "boom" ∧
    "Error calling".data <+: (adapterW.execute clientErrW []).data ∧
    "boom".data <:+ (adapterW.execute clientErrW []).data := by
  have h := (execute_never_raises adapterW clientErrW []).1 "boom" rfl
  exact ⟨rfl, h.1, h.2.1, h.2.2⟩

/-- C2 counterexample: two distinct (server, capability) pairs whose adapters
share the public name `"mcp__a__b__c"`, because the server name may itself
contain the separator `"__"`. -/
theorem adapter_name_collision_cex :
    (McpToolAdapter.make "a" "b__c" "d" (Schema.obj [])).name =
      (McpToolAdapter.make "a__b" "c" "d" (Schema.obj [])).name ∧
    ¬(("a" : String) = "a__b" ∧ ("b__c" : String) = "c") := by
  constructor
  · decide
  · decide

/-- C2 (amended): every adapter's public name is exactly
`"mcp__" ++ server ++ "__" ++ capability`, and two adapters for the same
capability name on different servers always get distinct names; full
injectivity on (server, capability) pairs fails when a server name contains
`"__"`. -/
theorem adapter_name_format_and_uniqueness (s c s' c' d d' : String)
    (sch sch' : Schema) :
    (McpToolAdapter.make s c d sch).name = "mcp__" ++ s ++ "__" ++ c ∧
    (c = c' → s ≠ s' →
      (McpToolAdapter.make s c d sch).name ≠
        (McpToolAdapter.make s' c' d' sch').name) := by
  refine ⟨rfl, ?_⟩
  intro hc hs hne
  apply hs
  subst hc
  have hd := congrArg String.data hne
  simp only [McpToolAdapter.name, McpToolAdapter.make, String.data_append] at hd
  have h1 := List.append_cancel_right hd
  have h2 := List.append_cancel_right h1
  have h3 := List.append_cancel_left h2
  exact String.ext h3

/-- C2 witness: equal capability names on the distinct servers `"s1"` and
`"s2"` give the distinct adapter names. -/
theorem adapter_name_uniqueness_witness :
    (McpToolAdapter.make "s1" "t" "d" (Schema.obj [])).name =
      "mcp__" ++ "s1" ++ "__" ++ "t" ∧
    (McpToolAdapter.make "s1" "t" "d" (Schema.obj [])).name ≠
      (McpToolAdapter.make "s2" "t" "d" (Schema.obj [])).name := by
  have h := adapter_name_format_and_uniqueness "s1" "t" "s2" "t" "d" "d"
    (Schema.obj []) (Schema.obj [])
  exact ⟨h.1, h.2 rfl (by decide)⟩

/-- C3 counterexample: a call returning one text block whose text is empty has
an empty joined result, yet `execute` returns `""`, not the sentinel — the
code tests whether the block list is empty, not whether the join is. -/
theorem execute_empty_join_cex :
    adapterW.execute clientEmptyTextW [] = "" ∧
    ("" : String) ≠ "(empty result)" := by
  constructor
  · decide
  · decide

/-- C3 (amended): when the remote call succeeds, `execute` returns the
sentinel `"(empty result)"` exactly when there are zero content blocks;
when at least one block is present it returns the newline-join, in block
order, of each text block's text and each other block's stringification —
even when that join is the empty string. -/
theorem execute_join_blocks (a : McpToolAdapter) (client : McpClient)
    (kwargs : List (String × String)) (content : List ContentBlock)
    (h : client a.tool_name kwargs = .ok content) :
    a.execute client kwargs =
      (if content.isEmpty then "(empty result)"
       else String.intercalate "\n" (content.map blockPart)) := by
  cases content <;> simp [McpToolAdapter.execute, h]

/-- C3 witness: the two-block response of spec §8 joins to
`"Line 1\nLine 2"`. -/
theorem execute_join_blocks_witness :
    clientTwoLinesW adapterW.tool_name [] =
      .ok [.text "Line 1", .text "Line 2"] ∧
    adapterW.execute clientTwoLinesW [] = "Line 1\nLine 2" := by
  refine ⟨rfl, ?_⟩
  have h := execute_join_blocks adapterW clientTwoLinesW []
    [.text "Line 1", .text "Line 2"] rfl
  rw [h]
  decide

/-- C9: an adapter constructed with an empty remote description gets the
generated default `"MCP tool <capability> from <server>"`, which contains both
the capability name and the server name; and for every remote description the
stored description is nonempty. -/
theorem adapter_description_fallback (s c : String) (sch : Schema) :
    (McpToolAdapter.make s c "" sch).description =
      "MCP tool " ++ c ++ " from " ++ s ∧
    c.data <:+: ((McpToolAdapter.make s c "" sch).description).data ∧
    s.data <:+: ((McpToolAdapter.make s c "" sch).description).data ∧
    (∀ d : String, (McpToolAdapter.make s c d sch).description ≠ "") := by
  have hdef : (McpToolAdapter.make s c "" sch).description =
      "MCP tool " ++ c ++ " from " ++ s := rfl
  refine ⟨hdef, ?_, ?_, ?_⟩
  · rw [hdef]
    simp only [String.data_append, List.append_assoc]
    exact ((List.prefix_append _ _).isInfix).trans
      ((List.suffix_append _ _).isInfix)
  · rw [hdef]
    simp only [String.data_append]
    exact (List.suffix_append _ _).isInfix
  · intro d
    by_cases hd : d.isEmpty
    · intro h
      have := congrArg String.data h
      simp [McpToolAdapter.make, hd, String.data_append] at this
    · intro h
      apply hd
      apply (String.isEmpty_iff d).mpr
      simpa [McpToolAdapter.make, hd] using h

/-- C9 witness: the adapter for server `"s"`, capability `"t"` and empty
remote description. -/
theorem adapter_description_fallback_witness :
    (McpToolAdapter.make "s" "t" "" (Schema.obj [])).description =
      "MCP tool " ++ "t" ++ " from " ++ "s" ∧
    "t".data <:+: ((McpToolAdapter.make "s" "t" "" (Schema.obj [])).description).data ∧
    "s".data <:+: ((McpToolAdapter.make "s" "t" "" (Schema.obj [])).description).data ∧
    (McpToolAdapter.make "s" "t" "x" (Schema.obj [])).description ≠ "" := by
  have h := adapter_description_fallback "s" "t" (Schema.obj [])
  exact ⟨h.1, h.2.1, h.2.2.1, h.2.2.2 "x"⟩

/-- C10: the Transport Selector raises an error mentioning `"url"` for an
http server with empty URL, `"command"` for a stdio server with empty
command, and `"unsupported"` for any other transport type; otherwise it
returns the descriptor for the chosen type carrying the config's URL/headers
or command/args/env, and the config's unused container fields default to
empty containers. -/
theorem build_transport_validates (name : String) (cfg : McpServerConfig) :
    (cfg.type = "http" → cfg.url = "" →
      ∃ e, build_transport name cfg = .error e ∧ "url".data <:+: e.data) ∧
    (cfg.type = "stdio" → cfg.command = "" →
      ∃ e, build_transport name cfg = .error e ∧ "command".data <:+: e.data) ∧
    (cfg.type ≠ "http" → cfg.type ≠ "stdio" →
      ∃ e, build_transport name cfg = .error e ∧
        "unsupported".data <:+: e.data) ∧
    (cfg.type = "http" → cfg.url ≠ "" →
      build_transport name cfg = .ok (.streamableHttp cfg.url cfg.headers)) ∧
    (cfg.type = "stdio" → cfg.command ≠ "" →
      build_transport name cfg = .ok (.stdio cfg.command cfg.args cfg.env)) ∧
    (({} : McpServerConfig).headers = [] ∧ ({} : McpServerConfig).args = [] ∧
      ({} : McpServerConfig).env = []) := by
  have horEmpty : ∀ (xs : List (String × String)), orEmpty xs [] = xs := by
    intro xs; cases xs <;> rfl
  have horEmptyS : ∀ (xs : List String), orEmpty xs [] = xs := by
    intro xs; cases xs <;> rfl
  refine ⟨?_, ?_, ?_, ?_, ?_, rfl, rfl, rfl⟩
  · intro ht hu
    refine ⟨"MCP server '" ++ name ++ "': HTTP transport requires a 'url'",
      by simp [build_transport, ht, hu], ?_⟩
    simp only [String.data_append]
    exact List.IsInfix.trans (by decide) (List.suffix_append _ _).isInfix
  · intro ht hc
    refine ⟨"MCP server '" ++ name ++ "': stdio transport requires a 'command'",
      by simp [build_transport, ht, hc], ?_⟩
    simp only [String.data_append]
    exact List.IsInfix.trans (by decide) (List.suffix_append _ _).isInfix
  · intro h1 h2
    refine ⟨"MCP server '" ++ name ++ "': unsupported transport type '"
      ++ cfg.type ++ "' (expected 'http' or 'stdio')",
      by simp [build_transport, h1, h2], ?_⟩
    simp only [String.data_append]
    refine List.IsInfix.trans ?_ (List.prefix_append _ _).isInfix
    refine List.IsInfix.trans ?_ (List.prefix_append _ _).isInfix
    exact List.IsInfix.trans (by decide) (List.suffix_append _ _).isInfix
  · intro ht hu
    simp [build_transport, ht, hu, horEmpty]
  · intro ht hc
    by_cases hh : cfg.type = "http"
    · rw [hh] at ht; exact absurd ht (by decide)
    · simp [build_transport, hh, ht, hc, horEmpty, horEmptyS]

/-- C10 witness: the three invalid configurations produce errors mentioning
`"url"`, `"command"` and `"unsupported"`, and the two valid ones produce the
descriptors carrying the configured fields. -/
theorem build_transport_validates_witness :
    (∃ e, build_transport "w" { url := "" } = .error e ∧
      "url".data <:+: e.data) ∧
    (∃ e, build_transport "w" { type := "stdio" } = .error e ∧
      "command".data <:+: e.data) ∧
    (∃ e, build_transport "w" { type := "websocket" } = .error e ∧
      "unsupported".data <:+: e.data) ∧
    build_transport "w" { url := "http://x" } =
      .ok (.streamableHttp "http://x" []) ∧
    build_transport "w" { type := "stdio", command := "run" } =
      .ok (.stdio "run" [] []) := by
  refine ⟨?_, ?_, ?_, ?_, ?_⟩
  · exact (build_transport_validates "w" { url := "" }).1 rfl rfl
  · exact (build_transport_validates "w" { type := "stdio" }).2.1 rfl rfl
  · exact (build_transport_validates "w" { type := "websocket" }).2.2.1
      (by decide) (by decide)
  · exact (build_transport_validates "w" { url := "http://x" }).2.2.2.1
      rfl (by decide)
  · exact (build_transport_validates "w"
      { type := "stdio", command := "run" }).2.2.2.2.1 rfl (by decide)

/-! ## Concrete managers and environments used as witnesses -/

/-- A sample remote tool. -/
def remoteToolW : RemoteTool := { name := "t", description := some "d", inputSchema := none }

/-- An environment where every server connects and exposes `remoteToolW`. -/
def envOkW : Env := fun _ => .found [remoteToolW]

/-- An environment where every connection attempt raises. -/
def envDownW : Env := fun _ => .connectError "refused"

/-- A one-server configuration reaching `"srv"` over http. -/
def cfgOneW : McpConfig := { servers := [("srv", { url := "http://x" })] }

/-- The manager for `cfgOneW`, freshly constructed. -/
def mOneW : McpClientManager := McpClientManager.init cfgOneW

/-- A one-server configuration whose server is disabled. -/
def cfgDisabledW : McpConfig :=
  { servers := [("off", { enabled := false, url := "http://x" })] }

/-- The manager for `cfgDisabledW`, freshly constructed. -/
def mDisabledW : McpClientManager := McpClientManager.init cfgDisabledW

/-- A one-server configuration with an unsupported transport type. -/
def cfgBadTypeW : McpServerConfig := { type := "websocket" }

/-- The manager for the `cfgBadTypeW` server, freshly constructed. -/
def mBadTypeW : McpClientManager :=
  McpClientManager.init { servers := [("ws", cfgBadTypeW)] }

/-! ## Claims about the Connection Manager -/

/-- C4: once the manager is started, `start` returns the cached adapter list,
performs zero connection-open attempts, leaves the state unchanged (hence
still started), and its result does not depend on the environment at all (no
reconnection, no re-discovery). -/
theorem start_idempotent_after_started (m : McpClientManager)
    (env env' : Env) (h : m.started = true) :
    m.start env = (m, m.tools, 0) ∧ m.start env = m.start env' := by
  constructor <;> simp [McpClientManager.start, h]

/-- C4 witness: starting `mOneW`, then starting again, returns the cached
state with zero further opens; the first start performed exactly one open. -/
theorem start_idempotent_after_started_witness :
    (mOneW.start envOkW).2.2 = 1 ∧
    (mOneW.start envOkW).1.started = true ∧
    ((mOneW.start envOkW).1.start envDownW) =
      ((mOneW.start envOkW).1, (mOneW.start envOkW).1.tools, 0) ∧
    ((mOneW.start envOkW).1.start envDownW) =
      ((mOneW.start envOkW).1.start envOkW) := by
  have h := start_idempotent_after_started (mOneW.start envOkW).1
    envDownW envOkW rfl
  exact ⟨rfl, rfl, h.1, h.2⟩

/-- C5: on a not-yet-started manager, `start` completes without raising,
marks the manager started, and returns the concatenation of independent
per-server contributions; a server whose connection attempt raises
contributes zero adapters, and if the only server is unreachable the result
is the empty adapter list. -/
theorem start_isolates_server_failures (m : McpClientManager) (env : Env)
    (h : m.started = false) :
    ((m.start env).1.started = true) ∧
    ((m.start env).2.1 =
      (m.config.servers.map (serverContribution env)).flatten) ∧
    (∀ name cfg msg, env name = .connectError msg →
      serverContribution env (name, cfg) = []) ∧
    (∀ name cfg msg, m.config.servers = [(name, cfg)] →
      env name = .connectError msg → (m.start env).2.1 = []) := by
  have hspec := start_spec_of_not_started m env h
  have hcontrib : ∀ name cfg msg, env name = .connectError msg →
      serverContribution env (name, cfg) = [] := by
    intro name cfg msg he
    unfold serverContribution processServer
    cases hb : build_transport name cfg <;> by_cases hen : cfg.enabled <;>
      simp [he, hen, hb]
  refine ⟨?_, ?_, hcontrib, ?_⟩
  · rw [hspec]; rfl
  · rw [hspec]
  · intro name cfg msg hs he
    rw [hspec]
    simp [hs, hcontrib name cfg msg he, startedState]

/-- C5 witness: the fresh manager over the single unreachable server `"srv"`
ends started with an empty adapter list. -/
theorem start_isolates_server_failures_witness :
    mOneW.started = false ∧
    (mOneW.start envDownW).2.1 = [] ∧
    (mOneW.start envDownW).1.started = true := by
  have h := start_isolates_server_failures mOneW envDownW rfl
  exact ⟨rfl, h.2.2.2 "srv" { url := "http://x" } "refused" rfl rfl, h.1⟩

/-- C6 counterexample: for the enabled server `"ws"` with the unsupported
transport type `"websocket"`, the Transport Selector does raise a
configuration error mentioning `"unsupported"`, but `start` swallows it in
the per-server handler: the caller receives a normal result — empty adapter
list, zero connection-open attempts, `started = true` — and no error. -/
theorem start_swallows_config_error_cex :
    cfgBadTypeW.enabled = true ∧
    (∃ e, build_transport "ws" cfgBadTypeW = .error e ∧
      "unsupported".data <:+: e.data) ∧
    mBadTypeW.start (fun _ => .found []) =
      ({ mBadTypeW with started := true }, [], 0) := by
  refine ⟨rfl, ⟨_, rfl, by decide⟩, rfl⟩

/-- C6 (amended): a structurally invalid transport configuration does not
propagate out of `start`: the Transport Selector's error is caught by the
same per-server handler as connectivity failures, the invalid server
contributes zero adapters and causes zero connection-open attempts, and
`start` completes normally with the manager started. -/
theorem start_config_error_isolated (m : McpClientManager) (env : Env)
    (h : m.started = false) (name : String) (cfg : McpServerConfig)
    (e : String) (hb : build_transport name cfg = .error e) :
    serverContribution env (name, cfg) = [] ∧
    serverOpens env (name, cfg) = 0 ∧
    (m.start env).1.started = true := by
  refine ⟨?_, ?_, ?_⟩
  · unfold serverContribution processServer
    by_cases hen : cfg.enabled <;> simp [hen, hb]
  · unfold serverOpens processServer
    by_cases hen : cfg.enabled <;> simp [hen, hb]
  · rw [start_spec_of_not_started m env h]; rfl

/-- C6 amended-claim witness: the invalid `"websocket"` server contributes
nothing and the manager still starts. -/
theorem start_config_error_isolated_witness :
    mBadTypeW.started = false ∧
    serverContribution (fun _ => .found []) ("ws", cfgBadTypeW) = [] ∧
    serverOpens (fun _ => .found []) ("ws", cfgBadTypeW) = 0 ∧
    (mBadTypeW.start (fun _ => .found [])).1.started = true := by
  have h := start_config_error_isolated mBadTypeW (fun _ => .found []) rfl
    "ws" cfgBadTypeW
    ("MCP server 'ws': unsupported transport type 'websocket' (expected 'http' or 'stdio')")
    rfl
  exact ⟨rfl, h.1, h.2.1, h.2.2⟩

/-- C7: from every manager state whatsoever (so in particular every state
reachable by `start`/`stop` sequences, including partially failed starts and
the never-started state), `stop` attempts one close per open session no
matter which closes fail, and afterwards the session maps are empty,
`get_tools()` is empty and the manager is no longer started. -/
theorem stop_closes_all_and_resets (m : McpClientManager)
    (closeFails : String → Bool) :
    ((m.stop closeFails).2.map Prod.fst = m.contexts) ∧
    (m.stop closeFails).1.clients = [] ∧
    (m.stop closeFails).1.contexts = [] ∧
    (m.stop closeFails).1.get_tools = [] ∧
    (m.stop closeFails).1.is_started = false :=
  ⟨closeAll_map_fst _ _, rfl, rfl, rfl, rfl⟩

/-- C8: a disabled server is skipped entirely — no transport is built, no
connection-open is attempted, nothing is registered, zero adapters are
contributed — and a fresh manager whose only server is disabled starts to an
empty adapter list with `started = true`. -/
theorem start_skips_disabled (m : McpClientManager) (env : Env)
    (h : m.started = false) (name : String) (cfg : McpServerConfig)
    (hd : cfg.enabled = false) :
    serverContribution env (name, cfg) = [] ∧
    serverOpens env (name, cfg) = 0 ∧
    serverRegs env (name, cfg) = [] ∧
    (m.config.servers = [(name, cfg)] →
      m.start env = ({ m with tools := [], started := true }, [], 0)) := by
  refine ⟨by simp [serverContribution, hd], by simp [serverOpens, hd],
    by simp [serverRegs, hd], ?_⟩
  intro hs
  rw [start_spec_of_not_started m env h]
  simp [startedState, hs, serverContribution, serverOpens, serverRegs, hd]

/-- C8 witness: the fresh manager over the single disabled server `"off"`. -/
theorem start_skips_disabled_witness :
    mDisabledW.started = false ∧
    serverOpens envOkW ("off", { enabled := false, url := "http://x" }) = 0 ∧
    mDisabledW.start envOkW =
      ({ mDisabledW with tools := [], started := true }, [], 0) := by
  have h := start_skips_disabled mDisabledW envOkW rfl "off"
    { enabled := false, url := "http://x" } rfl
  exact ⟨rfl, h.2.1, h.2.2.2 rfl⟩

end Nanobot
